import Mathlib

/-!
Verification of the Relative Grading Tool.

The repository holds two grading engines:
  - app.py  : single-subject engine (class StrictUniversityGrading, process_results,
              _calculate_relative_boundaries, _get_absolute_boundaries, _assign_grade);
  - app1.py : multi-subject engine (same class shape plus GRADE_POINTS,
              apply_grace_criteria, calculate_sgpa).

This file embeds both engines shallowly.  Real-number arithmetic of the Python
code is modelled exactly over the rationals.  The statistical mean and the
population variance of a marks pool are computable rational functions below;
the population standard deviation (numpy std) is generally irrational, so
boundary functions take sigma as an explicit parameter and theorems constrain
it by sigma being nonnegative with sigma squared equal to the population
variance of the pool.  Pandas column operations, which act row-wise and
independently, are embedded as per-record functions mapped over lists.
-/

/-- Grade labels of the tool.  Ap, Bp, Cp stand for the labels A+, B+, C+ of the
source; Dstar is the grace grade written D-star in app1.py. -/
inductive Grade where
  | Ap | A | Bp | B | Cp | C | D | Dstar | F | I | Z
deriving DecidableEq, Repr

/-- GRADE_POINTS of app1.py lines 9-12. -/
def gradePoints : Grade → ℚ
  | Grade.Ap => 10
  | Grade.A => 9
  | Grade.Bp => 8
  | Grade.B => 7
  | Grade.Cp => 6
  | Grade.C => 5
  | Grade.D => 4
  | Grade.Dstar => 4
  | Grade.F => 0
  | Grade.I => 0
  | Grade.Z => 0

/-- The boundary dictionary of both engines: one rational cutoff per letter
grade, keys in the order A+, A, B+, B, C+, C, D of the source. -/
structure Bounds where
  Ap : ℚ
  A : ℚ
  Bp : ℚ
  B : ℚ
  Cp : ℚ
  C : ℚ
  D : ℚ
deriving DecidableEq, Repr

/-- The seven cutoffs are non-increasing in the order A+, A, B+, B, C+, C, D. -/
def nonIncr (b : Bounds) : Prop :=
  b.A ≤ b.Ap ∧ b.Bp ≤ b.A ∧ b.B ≤ b.Bp ∧ b.Cp ≤ b.B ∧ b.C ≤ b.Cp ∧ b.D ≤ b.C

instance (b : Bounds) : Decidable (nonIncr b) := by
  unfold nonIncr; infer_instance

/-- course_type of both engines; any value other than Practical selects the
Theory pass mark, and the source UI offers exactly these two. -/
inductive CourseType where
  | Theory | Practical
deriving DecidableEq, Repr

/-- An ese_marks cell of the input frame: either a number, or a non-numeric
string.  Numeric strings are parsed by pd.to_numeric in the source, so they
are embedded as num; the str constructor covers the values that coerce to
NaN (and then to 0). -/
inductive EseMark where
  | num (q : ℚ)
  | str (s : String)
deriving DecidableEq, Repr

/-- Upper-casing of pandas str.upper, stated structurally over the character
list of the string (identical in effect to String.toUpper, whose byte-level
loop a proof cannot evaluate). -/
def strUpper (s : String) : String := String.mk (s.data.map Char.toUpper)

/-- mask_absent of both engines: astype(str).str.upper() == the absentee
sentinel.  The string form of a number is never the sentinel. -/
def isAbsent : EseMark → Bool
  | EseMark.num _ => false
  | EseMark.str s => strUpper s == "AB"

/-- pd.to_numeric(ese_marks, errors coerce).fillna(0) of both engines:
numbers pass through, non-numeric values become 0. -/
def eseNumeric : EseMark → ℚ
  | EseMark.num q => q
  | EseMark.str _ => 0

/-- np.mean of a marks pool. -/
def mean (l : List ℚ) : ℚ := l.sum / l.length

/-- Population variance of a marks pool: numpy std is its square root
(divisor is the pool size, not size minus one). -/
def popVar (l : List ℚ) : ℚ := ((l.map (fun x => (x - mean l) ^ 2)).sum) / l.length

/-- Python round(x, 2) on the exact rational value: round to the nearest
multiple of 1/100.  Tie-breaking at an exact half differs between binary
floats and this exact model; no claim below depends on a tie. -/
def round2 (q : ℚ) : ℚ := (round (q * 100) : ℤ) / 100

/-- Shared constructor state of both engines (lines 10-20 of app.py, 18-28 of
app1.py): total max marks M, ESE max marks, course type, protocol string. -/
structure Config where
  M : ℚ
  eseM : ℚ
  ctype : CourseType
  protocol : String
deriving DecidableEq, Repr

/-- Pass mark P: half of M for Practical, forty percent of M otherwise. -/
def passMark (cfg : Config) : ℚ :=
  if cfg.ctype = CourseType.Practical then 0.50 * cfg.M else 0.40 * cfg.M

/-- ESE hurdle threshold: twenty percent of the ESE maximum. -/
def eseThreshold (cfg : Config) : ℚ := 0.20 * cfg.eseM

namespace App

/-- One row of the app.py input frame: columns id, marks, attendance,
ese_marks. -/
structure StudentRecord where
  id : Nat
  marks : ℚ
  attendance : ℚ
  eseMarks : EseMark
deriving DecidableEq, Repr

/-- Steps 1-3 of app.py process_results, fused per record (the pandas masks
assign each row independently): attendance below 75 gives I; otherwise an
absent ESE gives Z; otherwise a numeric ESE below the threshold gives F;
otherwise no grade yet.  Later steps only fill rows whose grade is null, so
an I or Z here is never overwritten. -/
def hurdleGrade (cfg : Config) (r : StudentRecord) : Option Grade :=
  if r.attendance < 75 then some Grade.I
  else if isAbsent r.eseMarks then some Grade.Z
  else if eseNumeric r.eseMarks < eseThreshold cfg then some Grade.F
  else none

/-- stats_mask of app.py step 4: Protocol A (Exclusive) keeps rows with
attendance at least 75 and numeric ESE at least the threshold; any other
protocol keeps all rows with attendance at least 75. -/
def statsMask (cfg : Config) (r : StudentRecord) : Bool :=
  if cfg.protocol == "Protocol A (Exclusive)" then
    decide (75 ≤ r.attendance) && decide (eseThreshold cfg ≤ eseNumeric r.eseMarks)
  else
    decide (75 ≤ r.attendance)

/-- The marks of the statistics-eligible rows (regular_students in app.py). -/
def statsPool (cfg : Config) (rs : List StudentRecord) : List ℚ :=
  (rs.filter (statsMask cfg)).map (fun r => r.marks)

/-- app.py _calculate_relative_boundaries before the max-marks protection:
the base formula around mean X and std sigma, then the moderation rule
(raw D above P: redistribute C+ and C toward P and cap D at P), else the
min cut-off protection (raw D below thirty percent of M: add delta to every
boundary, then force D to exactly thirty percent of M). -/
def boundsBeforeCap (P M X sigma : ℚ) : Bounds :=
  let rawD := X - 1.5 * sigma
  let base : Bounds :=
    { Ap := X + 1.5 * sigma, A := X + 1.0 * sigma, Bp := X + 0.5 * sigma,
      B := X, Cp := X - 0.5 * sigma, C := X - 1.0 * sigma, D := rawD }
  if rawD > P then
    { base with Cp := X - 1 * (X - P) / 3, C := X - 2 * (X - P) / 3, D := P }
  else if rawD < 0.30 * M then
    let delta := 0.30 * M - rawD
    let shifted : Bounds :=
      { Ap := base.Ap + delta, A := base.A + delta, Bp := base.Bp + delta,
        B := base.B + delta, Cp := base.Cp + delta, C := base.C + delta,
        D := base.D + delta }
    { shifted with D := 0.30 * M }
  else base

/-- app.py _calculate_relative_boundaries, lines 95-135: the two mutually
exclusive conditions above, then the max-marks protection capping A+ at M. -/
def calculateRelativeBoundaries (P M X sigma : ℚ) : Bounds :=
  let b1 := boundsBeforeCap P M X sigma
  if b1.Ap > M then { b1 with Ap := M } else b1

/-- app.py _get_absolute_boundaries, lines 137-141. -/
def getAbsoluteBoundaries (ctype : CourseType) : Bounds :=
  if ctype = CourseType.Theory then
    { Ap := 90, A := 80, Bp := 72, B := 64, Cp := 56, C := 48, D := 40 }
  else
    { Ap := 90, A := 80, Bp := 70, B := 62, Cp := 58, C := 54, D := 50 }

/-- app.py _assign_grade, lines 143-151: first boundary the marks meet or
exceed, scanned from A+ down; below D gives F. -/
def assignGrade (marks : ℚ) (b : Bounds) : Grade :=
  if marks ≥ b.Ap then Grade.Ap
  else if marks ≥ b.A then Grade.A
  else if marks ≥ b.Bp then Grade.Bp
  else if marks ≥ b.B then Grade.B
  else if marks ≥ b.Cp then Grade.Cp
  else if marks ≥ b.C then Grade.C
  else if marks ≥ b.D then Grade.D
  else Grade.F

/-- Step 5 of app.py process_results: relative boundaries when the eligible
pool has at least 30 rows, else the absolute table.  sigma is the population
standard deviation of the pool, passed explicitly. -/
def chosenBoundaries (cfg : Config) (rs : List StudentRecord) (sigma : ℚ) : Bounds :=
  if 30 ≤ (statsPool cfg rs).length then
    calculateRelativeBoundaries (passMark cfg) cfg.M (mean (statsPool cfg rs)) sigma
  else
    getAbsoluteBoundaries cfg.ctype

/-- Step 6 of app.py process_results for one row: rows already graded by a
hurdle keep that grade; the rest get the boundary scan. -/
def finalGrade (cfg : Config) (b : Bounds) (r : StudentRecord) : Grade :=
  match hurdleGrade cfg r with
  | some g => g
  | none => assignGrade r.marks b

/-- app.py process_results, lines 22-93, restricted to the Final_Grade
column it produces. -/
def processResults (cfg : Config) (rs : List StudentRecord) (sigma : ℚ) : List Grade :=
  rs.map (finalGrade cfg (chosenBoundaries cfg rs sigma))

end App

namespace App1

/-- One row of the app1.py semester frame: columns student_id, subject_code,
credits, marks, attendance, ese_marks (the per-subject total_max, ese_max and
course_type columns are the Config of that subject batch). -/
structure InRec where
  studentId : Nat
  subjectCode : String
  credits : ℚ
  marks : ℚ
  attendance : ℚ
  eseMarks : EseMark
deriving DecidableEq, Repr

/-- A row after app1.py process_results: the input columns plus Final_Grade,
boundary_D and min_ese_required.  is_graced is the flag apply_grace_criteria
may set; before grace the column is absent, which the aggregation reads as
false, so it starts false here. -/
structure GradedRec where
  studentId : Nat
  subjectCode : String
  credits : ℚ
  marks : ℚ
  attendance : ℚ
  eseMarks : EseMark
  grade : Grade
  boundaryD : ℚ
  minEseRequired : ℚ
  isGraced : Bool
deriving DecidableEq, Repr

/-- Steps 1-3 of app1.py process_results, fused per record exactly as in the
single-subject engine: I for attendance below 75, else Z for an absent ESE,
else F for a numeric ESE below the threshold, else no grade yet. -/
def hurdleGrade (cfg : Config) (r : InRec) : Option Grade :=
  if r.attendance < 75 then some Grade.I
  else if isAbsent r.eseMarks then some Grade.Z
  else if eseNumeric r.eseMarks < eseThreshold cfg then some Grade.F
  else none

/-- stats_mask of app1.py step 4: Protocol A (Strict) also requires the ESE
threshold; any other protocol keeps every row with attendance at least 75. -/
def statsMask (cfg : Config) (r : InRec) : Bool :=
  if cfg.protocol == "Protocol A (Strict)" then
    decide (75 ≤ r.attendance) && decide (eseThreshold cfg ≤ eseNumeric r.eseMarks)
  else
    decide (75 ≤ r.attendance)

/-- regular_students of app1.py: marks of the statistics-eligible rows. -/
def statsPool (cfg : Config) (rs : List InRec) : List ℚ :=
  (rs.filter (statsMask cfg)).map (fun r => r.marks)

/-- app1.py _calculate_relative_boundaries, lines 71-84: the same base
formula, but moderation only caps D at P, the min cut-off protection only
raises D to thirty percent of M, and there is no max-marks protection. -/
def calculateRelativeBoundaries (P M X sigma : ℚ) : Bounds :=
  let rawD := X - 1.5 * sigma
  let bounds : Bounds :=
    { Ap := X + 1.5 * sigma, A := X + 1.0 * sigma, Bp := X + 0.5 * sigma,
      B := X, Cp := X - 0.5 * sigma, C := X - 1.0 * sigma, D := rawD }
  if rawD > P then { bounds with D := P }
  else if rawD < 0.30 * M then { bounds with D := 0.30 * M }
  else bounds

/-- app1.py _get_absolute_boundaries, lines 86-90 (same table as app.py). -/
def getAbsoluteBoundaries (ctype : CourseType) : Bounds :=
  if ctype = CourseType.Theory then
    { Ap := 90, A := 80, Bp := 72, B := 64, Cp := 56, C := 48, D := 40 }
  else
    { Ap := 90, A := 80, Bp := 70, B := 62, Cp := 58, C := 54, D := 50 }

/-- app1.py _assign_grade, lines 92-95: loop over the labels from A+ down,
return the first whose cutoff the marks meet or exceed, else F. -/
def assignGrade (marks : ℚ) (b : Bounds) : Grade :=
  if marks ≥ b.Ap then Grade.Ap
  else if marks ≥ b.A then Grade.A
  else if marks ≥ b.Bp then Grade.Bp
  else if marks ≥ b.B then Grade.B
  else if marks ≥ b.Cp then Grade.Cp
  else if marks ≥ b.C then Grade.C
  else if marks ≥ b.D then Grade.D
  else Grade.F

/-- Boundary selection of app1.py process_results: relative when the pool
has at least 30 rows, else absolute. -/
def chosenBoundaries (cfg : Config) (rs : List InRec) (sigma : ℚ) : Bounds :=
  if 30 ≤ (statsPool cfg rs).length then
    calculateRelativeBoundaries (passMark cfg) cfg.M (mean (statsPool cfg rs)) sigma
  else
    getAbsoluteBoundaries cfg.ctype

/-- Final grade of one row (step 5 of app1.py process_results). -/
def finalGrade (cfg : Config) (b : Bounds) (r : InRec) : Grade :=
  match hurdleGrade cfg r with
  | some g => g
  | none => assignGrade r.marks b

/-- app1.py process_results, lines 30-69: grade every row, carry boundary D
and the ESE threshold on each, grace flag initially unset. -/
def processResults (cfg : Config) (rs : List InRec) (sigma : ℚ) : List GradedRec :=
  let b := chosenBoundaries cfg rs sigma
  rs.map (fun r =>
    { studentId := r.studentId, subjectCode := r.subjectCode, credits := r.credits,
      marks := r.marks, attendance := r.attendance, eseMarks := r.eseMarks,
      grade := finalGrade cfg b r, boundaryD := b.D,
      minEseRequired := eseThreshold cfg, isGraced := false })

/-- cleared_all_ese of apply_grace_criteria: the numeric ESE meets the
carried per-subject threshold in every subject of the student. -/
def clearedAllEse (g : List GradedRec) : Bool :=
  g.all (fun r => decide (r.minEseRequired ≤ eseNumeric r.eseMarks))

/-- grace_mask of apply_grace_criteria: currently F, and boundary D minus
marks lies in the half-open interval from 0 exclusive to 3 inclusive. -/
def graceCandidate (r : GradedRec) : Bool :=
  (r.grade == Grade.F) && decide (r.boundaryD - r.marks ≤ 3)
    && decide (0 < r.boundaryD - r.marks)

/-- The row update apply_grace_criteria performs on the masked rows. -/
def graceUpgrade (r : GradedRec) : GradedRec :=
  if graceCandidate r then { r with grade := Grade.Dstar, isGraced := true } else r

/-- apply_grace_criteria, lines 100-134, for one student group: if the
student cleared ESE everywhere and the candidate count is between 1 and 2,
upgrade exactly the candidates; otherwise leave the group unchanged.  The
source applies this to every student_id group of the frame. -/
def applyGraceGroup (g : List GradedRec) : List GradedRec :=
  if clearedAllEse g then
    let n := (g.filter graceCandidate).length
    if 0 < n ∧ n ≤ 2 then g.map graceUpgrade else g
  else g

/-- Row predicate of the passed_mask in calculate_sgpa: grade not among
F, I, Z. -/
def isPassed (gr : Grade) : Bool :=
  !(gr == Grade.F || gr == Grade.I || gr == Grade.Z)

/-- total_credits of calculate_sgpa. -/
def totalCredits (g : List GradedRec) : ℚ := (g.map (fun r => r.credits)).sum

/-- earned_credits of calculate_sgpa: credits of the passed rows. -/
def earnedCredits (g : List GradedRec) : ℚ :=
  ((g.filter (fun r => isPassed r.grade)).map (fun r => r.credits)).sum

/-- total_points of calculate_sgpa: credits times the grade point of each
row (the Grade_Point column is GRADE_POINTS mapped over Final_Grade). -/
def totalPoints (g : List GradedRec) : ℚ :=
  (g.map (fun r => r.credits * gradePoints r.grade)).sum

/-- The SGPA cell of calculate_sgpa: total points over total credits when
total credits are positive, else 0, rounded to 2 decimal places. -/
def sgpaValue (g : List GradedRec) : ℚ :=
  round2 (if 0 < totalCredits g then totalPoints g / totalCredits g else 0)

/-- failed_subjects of calculate_sgpa: subject codes of the rows whose grade
is F, I or Z, in row order. -/
def failedSubjects (g : List GradedRec) : List String :=
  (g.filter (fun r => !(isPassed r.grade))).map (fun r => r.subjectCode)

/-- Graced_Count of calculate_sgpa: the number of rows whose grace flag is
set. -/
def gracedCount (g : List GradedRec) : Nat :=
  (g.filter (fun r => r.isGraced)).length

end App1

/-! Concrete inputs used by counterexamples and witnesses. -/

/-- A statistics pool of 30 marks: fifteen 0s and fifteen 100s.  Its mean is
50 and its population standard deviation is exactly 50. -/
def pool30 : List ℚ := List.replicate 15 0 ++ List.replicate 15 100

/-- A statistics pool of 30 marks all equal to 90: mean 90, deviation 0. -/
def pool90 : List ℚ := List.replicate 30 90

/-- A statistics pool of 30 marks all equal to 10: mean 10, deviation 0. -/
def poolLow : List ℚ := List.replicate 30 10

/-- The configuration of the spec scenario: Theory course, M equal to 100,
ESE maximum 60, the exclusive protocol of app.py. -/
def cfgT : Config :=
  { M := 100, eseM := 60, ctype := CourseType.Theory, protocol := "Protocol A (Exclusive)" }

/-- The five records of the spec scenario (the sample frame of app.py):
marks 82, 65, 45, 32, 91; attendance 90, 85, 80, 76, 95; ESE 40, 30, the
absentee sentinel, 10, 50. -/
def scenarioRecords : List App.StudentRecord :=
  [ { id := 1, marks := 82, attendance := 90, eseMarks := EseMark.num 40 },
    { id := 2, marks := 65, attendance := 85, eseMarks := EseMark.num 30 },
    { id := 3, marks := 45, attendance := 80, eseMarks := EseMark.str "AB" },
    { id := 4, marks := 32, attendance := 76, eseMarks := EseMark.num 10 },
    { id := 5, marks := 91, attendance := 95, eseMarks := EseMark.num 50 } ]

lemma isAbsent_num (q : ℚ) : isAbsent (EseMark.num q) = false := rfl

lemma isAbsent_AB : isAbsent (EseMark.str "AB") = true := by decide

lemma mean_pool30 : mean pool30 = 50 := by
  simp [pool30, mean, List.sum_append, List.sum_replicate, nsmul_eq_mul]
  norm_num

lemma popVar_pool30 : popVar pool30 = 2500 := by
  unfold popVar
  rw [mean_pool30]
  simp [pool30, List.map_append, List.map_replicate, List.sum_append, List.sum_replicate,
    nsmul_eq_mul]
  norm_num

lemma length_pool30 : pool30.length = 30 := by simp [pool30]

lemma mean_pool90 : mean pool90 = 90 := by
  rw [mean, pool90, List.sum_replicate]
  norm_num

lemma popVar_pool90 : popVar pool90 = 0 := by
  rw [popVar, mean_pool90, pool90, List.map_replicate, List.sum_replicate]
  norm_num

lemma length_pool90 : pool90.length = 30 := by simp [pool90]

lemma mean_poolLow : mean poolLow = 10 := by
  rw [mean, poolLow, List.sum_replicate]
  norm_num

lemma popVar_poolLow : popVar poolLow = 0 := by
  rw [popVar, mean_poolLow, poolLow, List.map_replicate, List.sum_replicate]
  norm_num

lemma length_poolLow : poolLow.length = 30 := by simp [poolLow]

/-! Branch characterizations of the two relative-boundary functions. -/

namespace App

lemma boundsBeforeCap_mod (P M X sigma : ℚ) (h : X - 1.5 * sigma > P) :
    boundsBeforeCap P M X sigma =
      { Ap := X + 1.5 * sigma, A := X + 1.0 * sigma, Bp := X + 0.5 * sigma, B := X,
        Cp := X - 1 * (X - P) / 3, C := X - 2 * (X - P) / 3, D := P } := by
  rw [boundsBeforeCap]
  simp [h]

lemma boundsBeforeCap_floor (P M X sigma : ℚ) (h1 : ¬ X - 1.5 * sigma > P)
    (h2 : X - 1.5 * sigma < 0.30 * M) :
    boundsBeforeCap P M X sigma =
      { Ap := X + 1.5 * sigma + (0.30 * M - (X - 1.5 * sigma)),
        A := X + 1.0 * sigma + (0.30 * M - (X - 1.5 * sigma)),
        Bp := X + 0.5 * sigma + (0.30 * M - (X - 1.5 * sigma)),
        B := X + (0.30 * M - (X - 1.5 * sigma)),
        Cp := X - 0.5 * sigma + (0.30 * M - (X - 1.5 * sigma)),
        C := X - 1.0 * sigma + (0.30 * M - (X - 1.5 * sigma)),
        D := 0.30 * M } := by
  rw [boundsBeforeCap]
  simp [h1, h2]

lemma boundsBeforeCap_base (P M X sigma : ℚ) (h1 : ¬ X - 1.5 * sigma > P)
    (h2 : ¬ X - 1.5 * sigma < 0.30 * M) :
    boundsBeforeCap P M X sigma =
      { Ap := X + 1.5 * sigma, A := X + 1.0 * sigma, Bp := X + 0.5 * sigma, B := X,
        Cp := X - 0.5 * sigma, C := X - 1.0 * sigma, D := X - 1.5 * sigma } := by
  rw [boundsBeforeCap]
  simp [h1, h2]

lemma calcRel_cap (P M X sigma : ℚ) (h : (boundsBeforeCap P M X sigma).Ap > M) :
    calculateRelativeBoundaries P M X sigma = { boundsBeforeCap P M X sigma with Ap := M } := by
  rw [calculateRelativeBoundaries]
  simp [h]

lemma calcRel_nocap (P M X sigma : ℚ) (h : ¬ (boundsBeforeCap P M X sigma).Ap > M) :
    calculateRelativeBoundaries P M X sigma = boundsBeforeCap P M X sigma := by
  rw [calculateRelativeBoundaries]
  simp [h]

end App

namespace App1

lemma calcRel_mod (P M X sigma : ℚ) (h : X - 1.5 * sigma > P) :
    calculateRelativeBoundaries P M X sigma =
      { Ap := X + 1.5 * sigma, A := X + 1.0 * sigma, Bp := X + 0.5 * sigma, B := X,
        Cp := X - 0.5 * sigma, C := X - 1.0 * sigma, D := P } := by
  rw [calculateRelativeBoundaries]
  simp [h]

lemma calcRel_floor (P M X sigma : ℚ) (h1 : ¬ X - 1.5 * sigma > P)
    (h2 : X - 1.5 * sigma < 0.30 * M) :
    calculateRelativeBoundaries P M X sigma =
      { Ap := X + 1.5 * sigma, A := X + 1.0 * sigma, Bp := X + 0.5 * sigma, B := X,
        Cp := X - 0.5 * sigma, C := X - 1.0 * sigma, D := 0.30 * M } := by
  rw [calculateRelativeBoundaries]
  simp [h1, h2]

lemma calcRel_base (P M X sigma : ℚ) (h1 : ¬ X - 1.5 * sigma > P)
    (h2 : ¬ X - 1.5 * sigma < 0.30 * M) :
    calculateRelativeBoundaries P M X sigma =
      { Ap := X + 1.5 * sigma, A := X + 1.0 * sigma, Bp := X + 0.5 * sigma, B := X,
        Cp := X - 0.5 * sigma, C := X - 1.0 * sigma, D := X - 1.5 * sigma } := by
  rw [calculateRelativeBoundaries]
  simp [h1, h2]

end App1

lemma filter_replicate_true {α : Type} (p : α → Bool) (a : α) (h : p a = true) (n : ℕ) :
    ((List.replicate n a).filter p).length = n := by
  induction n with
  | zero => rfl
  | succ n ih => simp [List.replicate_succ, List.filter_cons, h, ih]

/-- A batch of 30 identical eligible records (marks 90, attendance 90, ESE 40),
whose statistics pool under the Theory configuration has exactly 30 entries. -/
def bigRecords : List App.StudentRecord :=
  List.replicate 30 { id := 1, marks := 90, attendance := 90, eseMarks := EseMark.num 40 }

/-! Claim theorems. -/

/-- C3 counterexample: on the scenario batch (Theory, M 100, ESE max 60,
marks 82, 65, 45, 32, 91) the code gives student 1 grade A, not B+, and
student 2 grade B, not C+, refuting the claimed assignment. -/
theorem claim3_counterexample :
    App.processResults cfgT scenarioRecords 0 =
      [Grade.A, Grade.B, Grade.Z, Grade.F, Grade.Ap] ∧
    Grade.A ≠ Grade.Bp ∧ Grade.B ≠ Grade.Cp := by
  refine ⟨?_, by decide, by decide⟩
  norm_num [App.processResults, App.finalGrade, App.hurdleGrade, App.assignGrade,
    App.chosenBoundaries, App.statsPool, App.statsMask, App.getAbsoluteBoundaries,
    cfgT, scenarioRecords, eseThreshold, eseNumeric, isAbsent_num, isAbsent_AB]

/-- C3 amended: on the scenario batch the eligible pool has fewer than 30
rows, so the absolute Theory table with cutoffs 90, 80, 72, 64, 56, 48, 40
applies, and the grades are A, B, Z, F and A+ for students 1 to 5 (student 3
absent in the ESE, student 4 under the ESE threshold of 12). -/
theorem claim3_scenario :
    App.chosenBoundaries cfgT scenarioRecords 0 =
      { Ap := 90, A := 80, Bp := 72, B := 64, Cp := 56, C := 48, D := 40 } ∧
    App.processResults cfgT scenarioRecords 0 =
      [Grade.A, Grade.B, Grade.Z, Grade.F, Grade.Ap] := by
  constructor
  · norm_num [App.chosenBoundaries, App.statsPool, App.statsMask, App.getAbsoluteBoundaries,
      cfgT, scenarioRecords, eseThreshold, eseNumeric]
  · norm_num [App.processResults, App.finalGrade, App.hurdleGrade, App.assignGrade,
      App.chosenBoundaries, App.statsPool, App.statsMask, App.getAbsoluteBoundaries,
      cfgT, scenarioRecords, eseThreshold, eseNumeric, isAbsent_num, isAbsent_AB]

/-- C5: the relative method is selected exactly when the protocol-filtered
pool has at least 30 rows; any smaller pool (the empty one included) gets
the fixed table of its course type, whose Theory row is 90, 80, 72, 64, 56,
48, 40 and whose Practical row is 90, 80, 70, 62, 58, 54, 50. -/
theorem claim5_method_selection (cfg : Config) (rs : List App.StudentRecord) (sigma : ℚ) :
    ((App.statsPool cfg rs).length < 30 →
      App.chosenBoundaries cfg rs sigma = App.getAbsoluteBoundaries cfg.ctype) ∧
    (30 ≤ (App.statsPool cfg rs).length →
      App.chosenBoundaries cfg rs sigma =
        App.calculateRelativeBoundaries (passMark cfg) cfg.M
          (mean (App.statsPool cfg rs)) sigma) ∧
    App.getAbsoluteBoundaries CourseType.Theory =
      { Ap := 90, A := 80, Bp := 72, B := 64, Cp := 56, C := 48, D := 40 } ∧
    App.getAbsoluteBoundaries CourseType.Practical =
      { Ap := 90, A := 80, Bp := 70, B := 62, Cp := 58, C := 54, D := 50 } := by
  refine ⟨fun h => ?_, fun h => ?_, by norm_num [App.getAbsoluteBoundaries],
    by simp [App.getAbsoluteBoundaries]⟩
  · rw [App.chosenBoundaries, if_neg (by omega)]
  · rw [App.chosenBoundaries, if_pos h]

/-- C5 witness: the scenario pool has 3 eligible rows and gets the Theory
table; a batch of 30 eligible rows gets the relative boundaries. -/
theorem claim5_witness :
    App.chosenBoundaries cfgT scenarioRecords 0 = App.getAbsoluteBoundaries cfgT.ctype ∧
    App.chosenBoundaries cfgT bigRecords 0 =
      App.calculateRelativeBoundaries (passMark cfgT) cfgT.M
        (mean (App.statsPool cfgT bigRecords)) 0 := by
  constructor
  · refine (claim5_method_selection cfgT scenarioRecords 0).1 ?_
    norm_num [App.statsPool, App.statsMask, cfgT, scenarioRecords, eseThreshold, eseNumeric]
  · refine (claim5_method_selection cfgT bigRecords 0).2.1 ?_
    rw [App.statsPool, bigRecords, List.length_map, filter_replicate_true]
    norm_num [App.statsMask, cfgT, eseThreshold, eseNumeric]

/-- C7: hurdles apply in strict priority on the final grade of a record:
attendance below 75 gives I whatever the other fields hold; otherwise an
ESE cell that upper-cases to the absentee sentinel gives Z; otherwise a
numeric ESE (non-numeric cells coerce to 0) below a fifth of the ESE
maximum gives F; an I or Z is never overwritten by a later step. -/
theorem claim7_hurdle_priority (cfg : Config) (b : Bounds) (r : App.StudentRecord) :
    (r.attendance < 75 → App.finalGrade cfg b r = Grade.I) ∧
    (¬ r.attendance < 75 → isAbsent r.eseMarks = true → App.finalGrade cfg b r = Grade.Z) ∧
    (¬ r.attendance < 75 → isAbsent r.eseMarks = false →
      eseNumeric r.eseMarks < eseThreshold cfg → App.finalGrade cfg b r = Grade.F) := by
  refine ⟨fun h => ?_, fun h1 h2 => ?_, fun h1 h2 h3 => ?_⟩
  · simp [App.finalGrade, App.hurdleGrade, h]
  · simp [App.finalGrade, App.hurdleGrade, h1, h2]
  · simp [App.finalGrade, App.hurdleGrade, h1, h2, h3]

/-- C7 witness: a record with attendance 50 gets I, one with a lower-case
absentee cell gets Z, one with ESE 5 under the threshold 12 gets F. -/
theorem claim7_witness :
    App.finalGrade cfgT (App.getAbsoluteBoundaries CourseType.Theory)
      { id := 1, marks := 80, attendance := 50, eseMarks := EseMark.num 40 } = Grade.I ∧
    App.finalGrade cfgT (App.getAbsoluteBoundaries CourseType.Theory)
      { id := 2, marks := 80, attendance := 90, eseMarks := EseMark.str "ab" } = Grade.Z ∧
    App.finalGrade cfgT (App.getAbsoluteBoundaries CourseType.Theory)
      { id := 3, marks := 80, attendance := 90, eseMarks := EseMark.num 5 } = Grade.F := by
  refine ⟨(claim7_hurdle_priority cfgT _ _).1 (by norm_num),
    (claim7_hurdle_priority cfgT _ _).2.1 (by norm_num) (by decide),
    (claim7_hurdle_priority cfgT _ _).2.2 (by norm_num) (by decide) ?_⟩
  norm_num [eseNumeric, eseThreshold, cfgT]

/-! Field preservation under the protections. -/

lemma App.calcRel_lower_fields (P M X sigma : ℚ) :
    (App.calculateRelativeBoundaries P M X sigma).A = (App.boundsBeforeCap P M X sigma).A ∧
    (App.calculateRelativeBoundaries P M X sigma).Bp = (App.boundsBeforeCap P M X sigma).Bp ∧
    (App.calculateRelativeBoundaries P M X sigma).B = (App.boundsBeforeCap P M X sigma).B ∧
    (App.calculateRelativeBoundaries P M X sigma).Cp = (App.boundsBeforeCap P M X sigma).Cp ∧
    (App.calculateRelativeBoundaries P M X sigma).C = (App.boundsBeforeCap P M X sigma).C ∧
    (App.calculateRelativeBoundaries P M X sigma).D = (App.boundsBeforeCap P M X sigma).D := by
  by_cases hc : (App.boundsBeforeCap P M X sigma).Ap > M
  · rw [App.calcRel_cap P M X sigma hc]
    exact ⟨rfl, rfl, rfl, rfl, rfl, rfl⟩
  · rw [App.calcRel_nocap P M X sigma hc]
    exact ⟨rfl, rfl, rfl, rfl, rfl, rfl⟩

lemma App.calcRel_Ap_cap (P M X sigma : ℚ) (hc : (App.boundsBeforeCap P M X sigma).Ap > M) :
    (App.calculateRelativeBoundaries P M X sigma).Ap = M := by
  rw [App.calcRel_cap P M X sigma hc]

lemma App.nonIncr_boundsBeforeCap (P M X sigma : ℚ) (hs : 0 ≤ sigma) :
    nonIncr (App.boundsBeforeCap P M X sigma) := by
  by_cases hm : X - 1.5 * sigma > P
  · rw [App.boundsBeforeCap_mod P M X sigma hm]
    refine ⟨?_, ?_, ?_, ?_, ?_, ?_⟩ <;> simp <;> linarith
  · by_cases hf : X - 1.5 * sigma < 0.30 * M
    · rw [App.boundsBeforeCap_floor P M X sigma hm hf]
      refine ⟨?_, ?_, ?_, ?_, ?_, ?_⟩ <;> simp <;> linarith
    · rw [App.boundsBeforeCap_base P M X sigma hm hf]
      refine ⟨?_, ?_, ?_, ?_, ?_, ?_⟩ <;> simp <;> linarith

lemma App1.calcRel_upper_fields (P M X sigma : ℚ) :
    (App1.calculateRelativeBoundaries P M X sigma).Ap = X + 1.5 * sigma ∧
    (App1.calculateRelativeBoundaries P M X sigma).A = X + 1.0 * sigma ∧
    (App1.calculateRelativeBoundaries P M X sigma).Bp = X + 0.5 * sigma ∧
    (App1.calculateRelativeBoundaries P M X sigma).B = X ∧
    (App1.calculateRelativeBoundaries P M X sigma).Cp = X - 0.5 * sigma ∧
    (App1.calculateRelativeBoundaries P M X sigma).C = X - 1.0 * sigma := by
  by_cases hm : X - 1.5 * sigma > P
  · rw [App1.calcRel_mod P M X sigma hm]
    exact ⟨rfl, rfl, rfl, rfl, rfl, rfl⟩
  · by_cases hf : X - 1.5 * sigma < 0.30 * M
    · rw [App1.calcRel_floor P M X sigma hm hf]
      exact ⟨rfl, rfl, rfl, rfl, rfl, rfl⟩
    · rw [App1.calcRel_base P M X sigma hm hf]
      exact ⟨rfl, rfl, rfl, rfl, rfl, rfl⟩

/-- C1 amended ordering theorem (draft). -/
theorem claim1_order_corrected (pool : List ℚ) (sigma P M : ℚ) (hs : 0 ≤ sigma)
    (hvar : sigma ^ 2 = popVar pool) (hsize : 30 ≤ pool.length) :
    ((App.calculateRelativeBoundaries P M (mean pool) sigma).Bp ≤
        (App.calculateRelativeBoundaries P M (mean pool) sigma).A ∧
      (App.calculateRelativeBoundaries P M (mean pool) sigma).B ≤
        (App.calculateRelativeBoundaries P M (mean pool) sigma).Bp ∧
      (App.calculateRelativeBoundaries P M (mean pool) sigma).Cp ≤
        (App.calculateRelativeBoundaries P M (mean pool) sigma).B ∧
      (App.calculateRelativeBoundaries P M (mean pool) sigma).C ≤
        (App.calculateRelativeBoundaries P M (mean pool) sigma).Cp ∧
      (App.calculateRelativeBoundaries P M (mean pool) sigma).D ≤
        (App.calculateRelativeBoundaries P M (mean pool) sigma).C) ∧
    ((App.calculateRelativeBoundaries P M (mean pool) sigma).A ≤ M →
      nonIncr (App.calculateRelativeBoundaries P M (mean pool) sigma)) ∧
    ((App1.calculateRelativeBoundaries P M (mean pool) sigma).A ≤
        (App1.calculateRelativeBoundaries P M (mean pool) sigma).Ap ∧
      (App1.calculateRelativeBoundaries P M (mean pool) sigma).Bp ≤
        (App1.calculateRelativeBoundaries P M (mean pool) sigma).A ∧
      (App1.calculateRelativeBoundaries P M (mean pool) sigma).B ≤
        (App1.calculateRelativeBoundaries P M (mean pool) sigma).Bp ∧
      (App1.calculateRelativeBoundaries P M (mean pool) sigma).Cp ≤
        (App1.calculateRelativeBoundaries P M (mean pool) sigma).B ∧
      (App1.calculateRelativeBoundaries P M (mean pool) sigma).C ≤
        (App1.calculateRelativeBoundaries P M (mean pool) sigma).Cp) ∧
    (mean pool - 1.5 * sigma > P →
      nonIncr (App1.calculateRelativeBoundaries P M (mean pool) sigma)) ∧
    (¬ mean pool - 1.5 * sigma > P → ¬ mean pool - 1.5 * sigma < 0.30 * M →
      nonIncr (App1.calculateRelativeBoundaries P M (mean pool) sigma)) ∧
    (¬ mean pool - 1.5 * sigma > P → mean pool - 1.5 * sigma < 0.30 * M →
      0.30 * M ≤ mean pool - 1.0 * sigma →
      nonIncr (App1.calculateRelativeBoundaries P M (mean pool) sigma)) ∧
    nonIncr (App.getAbsoluteBoundaries CourseType.Theory) ∧
    nonIncr (App.getAbsoluteBoundaries CourseType.Practical) ∧
    nonIncr (App1.getAbsoluteBoundaries CourseType.Theory) ∧
    nonIncr (App1.getAbsoluteBoundaries CourseType.Practical) := by
  generalize mean pool = X
  obtain ⟨hA, hBp, hB, hCp, hC, hD⟩ := App.calcRel_lower_fields P M X sigma
  have hpre := App.nonIncr_boundsBeforeCap P M X sigma hs
  obtain ⟨p1, p2, p3, p4, p5, p6⟩ := hpre
  refine ⟨⟨?_, ?_, ?_, ?_, ?_⟩, ?_, ?_, ?_, ?_, ?_, ?_, ?_, ?_, ?_⟩
  · rw [hA, hBp]; exact p2
  · rw [hBp, hB]; exact p3
  · rw [hB, hCp]; exact p4
  · rw [hCp, hC]; exact p5
  · rw [hC, hD]; exact p6
  · intro hAle
    refine ⟨?_, ?_, ?_, ?_, ?_, ?_⟩
    · by_cases hc : (App.boundsBeforeCap P M X sigma).Ap > M
      · rw [App.calcRel_Ap_cap P M X sigma hc, hA]
        rw [hA] at hAle
        exact hAle
      · rw [App.calcRel_nocap P M X sigma hc]
        exact p1
    · rw [hA, hBp]; exact p2
    · rw [hBp, hB]; exact p3
    · rw [hB, hCp]; exact p4
    · rw [hCp, hC]; exact p5
    · rw [hC, hD]; exact p6
  · obtain ⟨q1, q2, q3, q4, q5, q6⟩ := App1.calcRel_upper_fields P M X sigma
    refine ⟨?_, ?_, ?_, ?_, ?_⟩ <;> simp only [q1, q2, q3, q4, q5, q6] <;> linarith
  · intro hm
    rw [App1.calcRel_mod P M X sigma hm]
    refine ⟨?_, ?_, ?_, ?_, ?_, ?_⟩ <;> simp <;> linarith
  · intro hm hf
    rw [App1.calcRel_base P M X sigma hm hf]
    refine ⟨?_, ?_, ?_, ?_, ?_, ?_⟩ <;> simp <;> linarith
  · intro hm hf hfloor
    rw [App1.calcRel_floor P M X sigma hm hf]
    refine ⟨?_, ?_, ?_, ?_, ?_, ?_⟩ <;> simp <;> linarith
  · rw [App.getAbsoluteBoundaries, if_pos rfl]; norm_num [nonIncr]
  · rw [App.getAbsoluteBoundaries, if_neg (by decide)]; norm_num [nonIncr]
  · rw [App1.getAbsoluteBoundaries, if_pos rfl]; norm_num [nonIncr]
  · rw [App1.getAbsoluteBoundaries, if_neg (by decide)]; norm_num [nonIncr]

/-- C1 counterexample: on the pool of fifteen 0s and fifteen 100s (mean 50,
population deviation exactly 50) with Theory pass mark 40 and M 100, the
app.py boundary set has A+ capped to 100 under shifted A 155, and the
app1.py set has C 0 under D 30: neither is non-increasing. -/
theorem claim1_counterexample :
    30 ≤ pool30.length ∧ (0 : ℚ) ≤ 50 ∧ (50 : ℚ) ^ 2 = popVar pool30 ∧
    ¬ nonIncr (App.calculateRelativeBoundaries 40 100 (mean pool30) 50) ∧
    ¬ nonIncr (App1.calculateRelativeBoundaries 40 100 (mean pool30) 50) := by
  refine ⟨by rw [length_pool30], by norm_num, by rw [popVar_pool30]; norm_num, ?_, ?_⟩
  · rw [mean_pool30]
    have hfl := App.boundsBeforeCap_floor 40 100 50 50 (by norm_num) (by norm_num)
    rw [App.calcRel_cap 40 100 50 50 (by rw [hfl]; norm_num), hfl]
    norm_num [nonIncr]
  · rw [mean_pool30, App1.calcRel_floor 40 100 50 50 (by norm_num) (by norm_num)]
    norm_num [nonIncr]

/-- C1 witness: on the all-90 pool with Theory parameters, both engines
return non-increasing boundary sets. -/
theorem claim1_witness :
    nonIncr (App.calculateRelativeBoundaries 40 100 (mean pool90) 0) ∧
    nonIncr (App1.calculateRelativeBoundaries 40 100 (mean pool90) 0) := by
  have h := claim1_order_corrected pool90 0 40 100 le_rfl
    (by rw [popVar_pool90]; norm_num) (by rw [length_pool90])
  refine ⟨h.2.1 ?_, h.2.2.2.1 ?_⟩
  · rw [(App.calcRel_lower_fields 40 100 (mean pool90) 0).1,
      App.boundsBeforeCap_mod 40 100 (mean pool90) 0 (by rw [mean_pool90]; norm_num),
      mean_pool90]
    norm_num
  · rw [mean_pool90]; norm_num

/-- C2 amended: when the floor protection fires (raw D at most P and below
0.30 times M), the final D is exactly 0.30 times M in both engines; in
app.py the A, B+, B, C+ and C boundaries are all shifted up by the same
delta and A+ is shifted by delta unless the shifted value exceeds M, in
which case the ceiling caps it at M; in app1.py only D changes and the
other six boundaries keep their base values. -/
theorem claim2_floor_corrected (pool : List ℚ) (sigma P M : ℚ) (hs : 0 ≤ sigma)
    (hvar : sigma ^ 2 = popVar pool) (hsize : 30 ≤ pool.length)
    (hmod : ¬ mean pool - 1.5 * sigma > P)
    (hfloor : mean pool - 1.5 * sigma < 0.30 * M) :
    (App.calculateRelativeBoundaries P M (mean pool) sigma).D = 0.30 * M ∧
    (App.calculateRelativeBoundaries P M (mean pool) sigma).A =
      mean pool + 1.0 * sigma + (0.30 * M - (mean pool - 1.5 * sigma)) ∧
    (App.calculateRelativeBoundaries P M (mean pool) sigma).Bp =
      mean pool + 0.5 * sigma + (0.30 * M - (mean pool - 1.5 * sigma)) ∧
    (App.calculateRelativeBoundaries P M (mean pool) sigma).B =
      mean pool + (0.30 * M - (mean pool - 1.5 * sigma)) ∧
    (App.calculateRelativeBoundaries P M (mean pool) sigma).Cp =
      mean pool - 0.5 * sigma + (0.30 * M - (mean pool - 1.5 * sigma)) ∧
    (App.calculateRelativeBoundaries P M (mean pool) sigma).C =
      mean pool - 1.0 * sigma + (0.30 * M - (mean pool - 1.5 * sigma)) ∧
    (¬ mean pool + 1.5 * sigma + (0.30 * M - (mean pool - 1.5 * sigma)) > M →
      (App.calculateRelativeBoundaries P M (mean pool) sigma).Ap =
        mean pool + 1.5 * sigma + (0.30 * M - (mean pool - 1.5 * sigma))) ∧
    (mean pool + 1.5 * sigma + (0.30 * M - (mean pool - 1.5 * sigma)) > M →
      (App.calculateRelativeBoundaries P M (mean pool) sigma).Ap = M) ∧
    (App1.calculateRelativeBoundaries P M (mean pool) sigma).D = 0.30 * M ∧
    (App1.calculateRelativeBoundaries P M (mean pool) sigma).Ap = mean pool + 1.5 * sigma ∧
    (App1.calculateRelativeBoundaries P M (mean pool) sigma).A = mean pool + 1.0 * sigma ∧
    (App1.calculateRelativeBoundaries P M (mean pool) sigma).Bp = mean pool + 0.5 * sigma ∧
    (App1.calculateRelativeBoundaries P M (mean pool) sigma).B = mean pool ∧
    (App1.calculateRelativeBoundaries P M (mean pool) sigma).Cp = mean pool - 0.5 * sigma ∧
    (App1.calculateRelativeBoundaries P M (mean pool) sigma).C = mean pool - 1.0 * sigma := by
  generalize mean pool = X at hmod hfloor ⊢
  have hfl := App.boundsBeforeCap_floor P M X sigma hmod hfloor
  obtain ⟨hA, hBp, hB, hCp, hC, hD⟩ := App.calcRel_lower_fields P M X sigma
  have h1 := App1.calcRel_floor P M X sigma hmod hfloor
  refine ⟨by rw [hD, hfl], by rw [hA, hfl], by rw [hBp, hfl], by rw [hB, hfl],
    by rw [hCp, hfl], by rw [hC, hfl], fun hc => ?_, fun hc => ?_,
    by rw [h1], by rw [h1], by rw [h1], by rw [h1], by rw [h1], by rw [h1], by rw [h1]⟩
  · rw [App.calcRel_nocap P M X sigma (by rw [hfl]; exact hc), hfl]
  · exact App.calcRel_Ap_cap P M X sigma (by rw [hfl]; exact hc)

/-- C2 counterexample: on the 0s-and-100s pool with Theory parameters the
floor protection fires, yet the returned A+ of app.py is the ceiling-capped
100 rather than the delta-shifted 180, and app1.py returns the unshifted
base A+ 125: not every boundary is shifted by delta. -/
theorem claim2_counterexample :
    30 ≤ pool30.length ∧ (0 : ℚ) ≤ 50 ∧ (50 : ℚ) ^ 2 = popVar pool30 ∧
    ¬ mean pool30 - 1.5 * 50 > 40 ∧ mean pool30 - 1.5 * 50 < 0.30 * 100 ∧
    (App.calculateRelativeBoundaries 40 100 (mean pool30) 50).Ap ≠
      mean pool30 + 1.5 * 50 + (0.30 * 100 - (mean pool30 - 1.5 * 50)) ∧
    (App1.calculateRelativeBoundaries 40 100 (mean pool30) 50).Ap ≠
      mean pool30 + 1.5 * 50 + (0.30 * 100 - (mean pool30 - 1.5 * 50)) := by
  rw [mean_pool30]
  refine ⟨by rw [length_pool30], by norm_num, by rw [popVar_pool30]; norm_num,
    by norm_num, by norm_num, ?_, ?_⟩
  · have hfl := App.boundsBeforeCap_floor 40 100 50 50 (by norm_num) (by norm_num)
    rw [App.calcRel_Ap_cap 40 100 50 50 (by rw [hfl]; norm_num)]
    norm_num
  · rw [App1.calcRel_floor 40 100 50 50 (by norm_num) (by norm_num)]
    norm_num

/-- C2 witness: on the all-10 pool with Theory parameters the floor fires
and both final D boundaries are exactly 30. -/
theorem claim2_witness :
    (App.calculateRelativeBoundaries 40 100 (mean poolLow) 0).D = 0.30 * 100 ∧
    (App1.calculateRelativeBoundaries 40 100 (mean poolLow) 0).D = 0.30 * 100 := by
  have h := claim2_floor_corrected poolLow 0 40 100 le_rfl
    (by rw [popVar_poolLow]; norm_num) (by rw [length_poolLow])
    (by rw [mean_poolLow]; norm_num) (by rw [mean_poolLow]; norm_num)
  exact ⟨h.1, h.2.2.2.2.2.2.2.2.1⟩

/-- C6 amended: only app.py applies the ceiling protection, and it does so
independently of the other protections: whatever branch produced the
pre-ceiling set, an A+ above M is returned as exactly M, an A+ not above M
is returned untouched, and no other boundary is altered by the cap; app1.py
applies no ceiling and always returns A+ equal to X plus 1.5 sigma. -/
theorem claim6_ceiling_corrected (P M X sigma : ℚ) :
    ((App.boundsBeforeCap P M X sigma).Ap > M →
      (App.calculateRelativeBoundaries P M X sigma).Ap = M) ∧
    (¬ (App.boundsBeforeCap P M X sigma).Ap > M →
      App.calculateRelativeBoundaries P M X sigma = App.boundsBeforeCap P M X sigma) ∧
    ((App.calculateRelativeBoundaries P M X sigma).A = (App.boundsBeforeCap P M X sigma).A ∧
      (App.calculateRelativeBoundaries P M X sigma).Bp = (App.boundsBeforeCap P M X sigma).Bp ∧
      (App.calculateRelativeBoundaries P M X sigma).B = (App.boundsBeforeCap P M X sigma).B ∧
      (App.calculateRelativeBoundaries P M X sigma).Cp = (App.boundsBeforeCap P M X sigma).Cp ∧
      (App.calculateRelativeBoundaries P M X sigma).C = (App.boundsBeforeCap P M X sigma).C ∧
      (App.calculateRelativeBoundaries P M X sigma).D = (App.boundsBeforeCap P M X sigma).D) ∧
    (App1.calculateRelativeBoundaries P M X sigma).Ap = X + 1.5 * sigma := by
  exact ⟨fun hc => App.calcRel_Ap_cap P M X sigma hc,
    fun hc => App.calcRel_nocap P M X sigma hc,
    App.calcRel_lower_fields P M X sigma,
    (App1.calcRel_upper_fields P M X sigma).1⟩

/-- C6 counterexample: on the 0s-and-100s pool with M 100 the app1.py
boundary set keeps A+ at 125, above M, uncapped. -/
theorem claim6_counterexample :
    30 ≤ pool30.length ∧ (0 : ℚ) ≤ 50 ∧ (50 : ℚ) ^ 2 = popVar pool30 ∧
    (App1.calculateRelativeBoundaries 40 100 (mean pool30) 50).Ap = 125 ∧
    ¬ (App1.calculateRelativeBoundaries 40 100 (mean pool30) 50).Ap ≤ 100 := by
  rw [mean_pool30]
  have h := App1.calcRel_floor 40 100 50 50 (by norm_num) (by norm_num)
  refine ⟨by rw [length_pool30], by norm_num, by rw [popVar_pool30]; norm_num, ?_, ?_⟩
  · rw [h]; norm_num
  · rw [h]; norm_num

/-- C6 witness: with mean 50, sigma 50, pass mark 40 and M 100 the
pre-ceiling A+ of app.py is 180, above M, and the returned A+ is 100. -/
theorem claim6_witness :
    (App.boundsBeforeCap 40 100 50 50).Ap > 100 ∧
    (App.calculateRelativeBoundaries 40 100 50 50).Ap = 100 ∧
    (App1.calculateRelativeBoundaries 40 100 50 50).Ap = 50 + 1.5 * 50 := by
  have hc : (App.boundsBeforeCap 40 100 50 50).Ap > 100 := by
    rw [App.boundsBeforeCap_floor 40 100 50 50 (by norm_num) (by norm_num)]
    norm_num
  exact ⟨hc, (claim6_ceiling_corrected 40 100 50 50).1 hc,
    (claim6_ceiling_corrected 40 100 50 50).2.2.2⟩

/-- C10: when moderation triggers (raw D above the pass mark), app.py
redistributes C+ and C toward the pass mark and caps D at P, while app1.py
only caps D and keeps the base C+ and C; on the all-90 pool of 30 marks the
two engines therefore return different boundary sets for the same input and
configuration. -/
theorem claim10_moderation_divergence (P M X sigma : ℚ) (hmod : X - 1.5 * sigma > P) :
    ((App.calculateRelativeBoundaries P M X sigma).Cp = X - 1 * (X - P) / 3 ∧
      (App.calculateRelativeBoundaries P M X sigma).C = X - 2 * (X - P) / 3 ∧
      (App.calculateRelativeBoundaries P M X sigma).D = P) ∧
    ((App1.calculateRelativeBoundaries P M X sigma).Cp = X - 0.5 * sigma ∧
      (App1.calculateRelativeBoundaries P M X sigma).C = X - 1.0 * sigma ∧
      (App1.calculateRelativeBoundaries P M X sigma).D = P) ∧
    (30 ≤ pool90.length ∧ (0 : ℚ) ≤ 0 ∧ (0 : ℚ) ^ 2 = popVar pool90 ∧
      App.calculateRelativeBoundaries 40 100 (mean pool90) 0 ≠
        App1.calculateRelativeBoundaries 40 100 (mean pool90) 0) := by
  have hpre := App.boundsBeforeCap_mod P M X sigma hmod
  obtain ⟨hA, hBp, hB, hCp, hC, hD⟩ := App.calcRel_lower_fields P M X sigma
  have h1 := App1.calcRel_mod P M X sigma hmod
  refine ⟨⟨by rw [hCp, hpre], by rw [hC, hpre], by rw [hD, hpre]⟩,
    ⟨by rw [h1], by rw [h1], by rw [h1]⟩,
    by rw [length_pool90], le_rfl, by rw [popVar_pool90]; norm_num, ?_⟩
  rw [mean_pool90]
  have hm90 : (90 : ℚ) - 1.5 * 0 > 40 := by norm_num
  have hpre90 := App.boundsBeforeCap_mod 40 100 90 0 hm90
  rw [App.calcRel_nocap 40 100 90 0 (by rw [hpre90]; norm_num), hpre90,
    App1.calcRel_mod 40 100 90 0 hm90]
  intro hcontra
  rw [Bounds.mk.injEq] at hcontra
  norm_num at hcontra

/-- C10 witness: at mean 90, sigma 0, pass mark 40 moderation fires and the
two engines give C+ boundaries about 73.3 versus 90. -/
theorem claim10_witness :
    (App.calculateRelativeBoundaries 40 100 90 0).Cp = 90 - 1 * (90 - 40) / 3 ∧
    (App1.calculateRelativeBoundaries 40 100 90 0).Cp = 90 - 0.5 * 0 ∧
    (App.calculateRelativeBoundaries 40 100 90 0).D = 40 := by
  have h := claim10_moderation_divergence 40 100 90 0 (by norm_num)
  exact ⟨h.1.1, h.2.1.1, h.1.2.2⟩

/-- A graded record of student 7: subject S1, 4 credits, marks 38 with D
boundary 40 (2 marks short), grade F, ESE 20 over threshold 12. -/
def gR1 : App1.GradedRec :=
  { studentId := 7, subjectCode := "S1", credits := 4, marks := 38, attendance := 90,
    eseMarks := EseMark.num 20, grade := Grade.F, boundaryD := 40,
    minEseRequired := 12, isGraced := false }

/-- A graded record of student 7: subject S2, 3 credits, marks 70, grade B. -/
def gR2 : App1.GradedRec :=
  { studentId := 7, subjectCode := "S2", credits := 3, marks := 70, attendance := 95,
    eseMarks := EseMark.num 30, grade := Grade.B, boundaryD := 40,
    minEseRequired := 12, isGraced := false }

/-- C4: for a student who cleared the carried ESE threshold in every
subject, if exactly 1 or 2 subjects are graded F with the D boundary minus
marks in the half-open interval from 0 to 3, grace upgrades exactly those
subjects to the D-star grade (whose grade point equals that of D) and sets
their graced flag; with 3 or more qualifying subjects nothing is upgraded. -/
theorem claim4_grace_cap (g : List App1.GradedRec) (hese : App1.clearedAllEse g = true) :
    (((g.filter App1.graceCandidate).length = 1 ∨ (g.filter App1.graceCandidate).length = 2) →
      App1.applyGraceGroup g = g.map (fun r =>
        if App1.graceCandidate r then { r with grade := Grade.Dstar, isGraced := true }
        else r)) ∧
    (3 ≤ (g.filter App1.graceCandidate).length → App1.applyGraceGroup g = g) ∧
    gradePoints Grade.Dstar = gradePoints Grade.D := by
  refine ⟨fun hn => ?_, fun hn => ?_, rfl⟩
  · rw [App1.applyGraceGroup, if_pos hese]
    simp only []
    rw [if_pos (by omega :
      0 < (g.filter App1.graceCandidate).length ∧ (g.filter App1.graceCandidate).length ≤ 2)]
    rfl
  · rw [App1.applyGraceGroup, if_pos hese]
    simp only []
    rw [if_neg (by omega :
      ¬ (0 < (g.filter App1.graceCandidate).length ∧ (g.filter App1.graceCandidate).length ≤ 2))]

/-- C4 witness: student 7 cleared ESE in both subjects and has exactly one
candidate (F, 2 marks short of D), which grace upgrades to D-star. -/
theorem claim4_witness :
    App1.clearedAllEse [gR1, gR2] = true ∧
    ([gR1, gR2].filter App1.graceCandidate).length = 1 ∧
    App1.applyGraceGroup [gR1, gR2] =
      [{ gR1 with grade := Grade.Dstar, isGraced := true }, gR2] := by
  have hese : App1.clearedAllEse [gR1, gR2] = true := by
    norm_num [App1.clearedAllEse, gR1, gR2, eseNumeric]
  have hlen : ([gR1, gR2].filter App1.graceCandidate).length = 1 := by
    norm_num [App1.graceCandidate, gR1, gR2, List.filter]
  refine ⟨hese, hlen, ?_⟩
  rw [(claim4_grace_cap [gR1, gR2] hese).1 (Or.inl hlen)]
  norm_num [App1.graceCandidate, gR1, gR2]

lemma graceUpgrade_count (l : List App1.GradedRec)
    (h1 : ∀ r ∈ l, r.grade ≠ Grade.Dstar) (h2 : ∀ r ∈ l, r.isGraced = false) :
    ((l.map App1.graceUpgrade).filter (fun r => r.isGraced)).length =
      ((l.map App1.graceUpgrade).filter (fun r => r.grade == Grade.Dstar)).length ∧
    (l.filter (fun r => r.isGraced)).length =
      (l.filter (fun r => r.grade == Grade.Dstar)).length := by
  induction l with
  | nil => exact ⟨rfl, rfl⟩
  | cons r t ih =>
    have hr1 : r.grade ≠ Grade.Dstar := h1 r (List.mem_cons_self r t)
    have hr2 : r.isGraced = false := h2 r (List.mem_cons_self r t)
    obtain ⟨ihm, ihf⟩ := ih (fun x hx => h1 x (List.mem_cons_of_mem r hx))
      (fun x hx => h2 x (List.mem_cons_of_mem r hx))
    constructor
    · by_cases hc : App1.graceCandidate r
      · simp [App1.graceUpgrade, hc, List.filter_cons, ihm]
      · simp [App1.graceUpgrade, hc, List.filter_cons, hr2, hr1, ihm]
    · simp [List.filter_cons, hr2, hr1, ihf]

/-- C8: for a student group entering grace with no D-star grade and no set
grace flag, the aggregation of the graced group satisfies: total credits is
the sum over all rows, earned credits the sum over rows whose grade is not
F, I or Z, the SGPA is total points over total credits rounded to 2 places
when total credits are positive and 0 when they are zero, failed subjects
are exactly the codes of the F, I, Z rows in order, and the graced count
equals the number of D-star grades. -/
theorem claim8_sgpa (g0 : List App1.GradedRec)
    (h1 : ∀ r ∈ g0, r.grade ≠ Grade.Dstar) (h2 : ∀ r ∈ g0, r.isGraced = false) :
    App1.totalCredits (App1.applyGraceGroup g0) =
      ((App1.applyGraceGroup g0).map (fun r => r.credits)).sum ∧
    App1.earnedCredits (App1.applyGraceGroup g0) =
      (((App1.applyGraceGroup g0).filter (fun r =>
        !(r.grade == Grade.F || r.grade == Grade.I || r.grade == Grade.Z))).map
          (fun r => r.credits)).sum ∧
    (0 < App1.totalCredits (App1.applyGraceGroup g0) →
      App1.sgpaValue (App1.applyGraceGroup g0) =
        round2 (App1.totalPoints (App1.applyGraceGroup g0) /
          App1.totalCredits (App1.applyGraceGroup g0))) ∧
    (App1.totalCredits (App1.applyGraceGroup g0) = 0 →
      App1.sgpaValue (App1.applyGraceGroup g0) = 0) ∧
    App1.failedSubjects (App1.applyGraceGroup g0) =
      ((App1.applyGraceGroup g0).filter (fun r =>
        r.grade == Grade.F || r.grade == Grade.I || r.grade == Grade.Z)).map
          (fun r => r.subjectCode) ∧
    App1.gracedCount (App1.applyGraceGroup g0) =
      ((App1.applyGraceGroup g0).filter (fun r => r.grade == Grade.Dstar)).length := by
  refine ⟨rfl, rfl, fun h => ?_, fun h => ?_, ?_, ?_⟩
  · rw [App1.sgpaValue, if_pos h]
  · rw [App1.sgpaValue, if_neg (by rw [h]; exact lt_irrefl 0)]
    norm_num [round2]
  · simp [App1.failedSubjects, App1.isPassed, Bool.not_not]
  · have hcount := graceUpgrade_count g0 h1 h2
    rw [App1.gracedCount, App1.applyGraceGroup]
    by_cases he : App1.clearedAllEse g0
    · rw [if_pos he]
      simp only []
      by_cases hn : 0 < (g0.filter App1.graceCandidate).length ∧
          (g0.filter App1.graceCandidate).length ≤ 2
      · rw [if_pos hn]
        exact hcount.1
      · rw [if_neg hn]
        exact hcount.2
    · rw [if_neg he]
      exact hcount.2

/-- C8 witness: on the two-subject group of student 7 the total credits are
positive, the SGPA equation holds, and the graced count equals the D-star
count. -/
theorem claim8_witness :
    0 < App1.totalCredits (App1.applyGraceGroup [gR1, gR2]) ∧
    App1.sgpaValue (App1.applyGraceGroup [gR1, gR2]) =
      round2 (App1.totalPoints (App1.applyGraceGroup [gR1, gR2]) /
        App1.totalCredits (App1.applyGraceGroup [gR1, gR2])) ∧
    App1.gracedCount (App1.applyGraceGroup [gR1, gR2]) =
      ((App1.applyGraceGroup [gR1, gR2]).filter (fun r => r.grade == Grade.Dstar)).length := by
  have h := claim8_sgpa [gR1, gR2] (by simp [gR1, gR2]) (by simp [gR1, gR2])
  have htc : 0 < App1.totalCredits (App1.applyGraceGroup [gR1, gR2]) := by
    norm_num [App1.applyGraceGroup, App1.clearedAllEse, App1.graceCandidate,
      App1.graceUpgrade, App1.totalCredits, gR1, gR2, eseNumeric, List.filter]
  exact ⟨htc, h.2.2.1 htc, h.2.2.2.2.2⟩

/-- A configuration whose ESE maximum 120 exceeds the total maximum 100. -/
def cfgBad : Config :=
  { M := 100, eseM := 120, ctype := CourseType.Theory, protocol := "Protocol A (Strict)" }

/-- A record with negative credits. -/
def badRec : App1.InRec :=
  { studentId := 1, subjectCode := "S1", credits := -3, marks := 50, attendance := 80,
    eseMarks := EseMark.num 30 }

/-- C9 counterexample: a batch whose configuration has ESE maximum above the
total maximum and whose record has negative credits is not rejected: the
engine grades it normally (the record gets grade C). -/
theorem claim9_counterexample :
    cfgBad.M < cfgBad.eseM ∧ badRec.credits < 0 ∧
    (App1.processResults cfgBad [badRec] 0).map (fun r => r.grade) = [Grade.C] := by
  refine ⟨by norm_num [cfgBad], by norm_num [badRec], ?_⟩
  norm_num [App1.processResults, App1.finalGrade, App1.hurdleGrade, App1.assignGrade,
    App1.chosenBoundaries, App1.statsPool, App1.statsMask, App1.getAbsoluteBoundaries,
    cfgBad, badRec, eseThreshold, eseNumeric, isAbsent_num]

/-- C9 amended: neither engine validates the configuration: app1.py grades
every record of every batch, whatever the configuration holds, producing
exactly one graded row per input row with no rejection path. -/
theorem claim9_no_validation (cfg : Config) (rs : List App1.InRec) (sigma : ℚ) :
    (App1.processResults cfg rs sigma).length = rs.length := by
  simp [App1.processResults]
